import Mathlib

/-!
Shallow embedding of the chat demo backend (demo/server/src/index.ts) and of the
client-side deserialization code (the Flutter/Dart file), together with proofs
about the claims of the specification.

Modelling conventions:
* JS/Dart strings are Lean `String`; a field that can hold the JS `null` at
  runtime is `Option String` (`none` = null).  In particular `Message.text` is
  `Option String`: the TS declaration says `string`, but the response handler
  passes `response.choices[0].message.content!` through, and the non-null
  assertion `!` is erased at runtime, so `null` can be stored.
* Timestamps (`new Date()`, its ISO-8601 wire rendering, and the result of the
  Dart `DateTime.parse`) are modelled as `Nat` epoch instants.  `JSON.stringify`
  renders a `Date` as its ISO-8601 string via `toISOString`, and
  `DateTime.parse` recovers exactly that instant; since this codec is a
  bijection between instants and the strings `toISOString` emits, the wire
  value is modelled by the constructor `Json.date t` carrying the instant.
* The Identity Verifier (`admin.auth().verifyIdToken`) and the OpenAI call are
  external collaborators; they enter the model as function parameters
  (`verify`, `bridge`).  A thrown JS exception is `none` / `Except.error`.
* Fresh uuids (`v4()`) and current timestamps are nondeterministic inputs; they
  enter each operation as explicit parameters, with freshness as a hypothesis
  where a claim needs it.
-/

/-- JSON wire values exchanged between server and client.  `date t` stands for
the ISO-8601 string rendering of the instant `t` (see the module comment). -/
inductive Json where
  | null
  | str (s : String)
  | date (t : Nat)
  | arr (elements : List Json)
  | obj (fields : List (String × Json))

/-- Key lookup on a JSON object, as in `json[key]` on a decoded map. -/
def Json.get : Json → String → Option Json
  | .obj fields, key => fields.lookup key
  | _, _ => none

/-- TS `enum Sender { User = "user", Bot = "bot" }` (also the Dart enum). -/
inductive Sender where
  | user
  | bot
  deriving DecidableEq, Repr

/-- The runtime string value of the TS enum member (`User = "user"`, `Bot = "bot"`). -/
def Sender.jsonValue : Sender → String
  | .user => "user"
  | .bot => "bot"

/-- Server `class Message` (fields `id`, `text`, `createdAt`, `userId`, `sender`).
`text` is `Option String` because the bot handler can store JS `null` there. -/
structure Message where
  id : String
  text : Option String
  createdAt : Nat
  userId : String
  sender : Sender
  deriving DecidableEq, Repr

/-- Server `class Chat` (fields `id`, `messages`, `title`, `userId`). -/
structure Chat where
  id : String
  messages : List Message
  title : String
  userId : String
  deriving DecidableEq, Repr

/-- `Chat.empty(userId)`: `new Chat(v4(), [], "New Chat", userId)`; the uuid
`v4()` is the explicit parameter `freshId`. -/
def Chat.empty (freshId : String) (userId : String) : Chat :=
  { id := freshId, messages := [], title := "New Chat", userId := userId }

/-- `Message.now(text, userId, sender)`: `new Message(v4(), text, new Date(), userId, sender)`;
the uuid and the clock reading are the explicit parameters `freshId`, `timestamp`. -/
def Message.now (freshId : String) (timestamp : Nat) (text : Option String)
    (userId : String) (sender : Sender) : Message :=
  { id := freshId, text := text, createdAt := timestamp, userId := userId, sender := sender }

/-- `Message.toJson()` followed by `JSON.stringify` of the fields: the `Date`
becomes its ISO-8601 string (`Json.date`), the enum its string value. -/
def Message.toJson (m : Message) : Json :=
  .obj [("id", .str m.id),
        ("text", match m.text with | some t => .str t | none => .null),
        ("createdAt", .date m.createdAt),
        ("userId", .str m.userId),
        ("sender", .str m.sender.jsonValue)]

/-- `Chat.toJson()`: `{id, messages: messages.map(toJson), title, userId}`. -/
def Chat.toJson (c : Chat) : Json :=
  .obj [("id", .str c.id),
        ("messages", .arr (c.messages.map Message.toJson)),
        ("title", .str c.title),
        ("userId", .str c.userId)]

/-- The in-memory store `const chats: Chat[]` is the state threaded through the
handlers; a `List Chat` in insertion order. -/
abbrev ChatStore := List Chat

/-- `findChat(chatId, user)`: `chats.find(chat => chat.id === chatId && chat.userId === user.uid)`. -/
def findChat (chatId : String) (uid : String) (chats : ChatStore) : Option Chat :=
  chats.find? fun chat => chat.id == chatId && chat.userId == uid

/-- An HTTP response: status code plus JSON body (plain-text bodies such as
`Unauthorized` or `Chat not found` are modelled as JSON strings). -/
structure HttpResponse where
  status : Nat
  body : Json

/-- In-place mutation `chat.messages.push(message)` of the chat object returned
by `findChat`: the first chat matching both `id` and `userId` gets `m` appended;
every other chat is untouched. -/
def pushMessage (chatId uid : String) (m : Message) : ChatStore → ChatStore
  | [] => []
  | chat :: rest =>
    if chat.id == chatId && chat.userId == uid then
      { chat with messages := chat.messages ++ [m] } :: rest
    else
      chat :: pushMessage chatId uid m rest

/-- Handler of `POST /chat/`: create an empty chat, push it onto the store,
answer 200 with its JSON. -/
def createChatHandler (freshId uid : String) (chats : ChatStore) :
    HttpResponse × ChatStore :=
  let createdChat := Chat.empty freshId uid
  ({ status := 200, body := createdChat.toJson }, chats ++ [createdChat])

/-- Handler of `POST /chat/:id/messages/`: look the chat up via `findChat`; 404
if absent; otherwise build `Message.now(req.body.text, uid, Sender.User)`,
push it onto the chat, answer 200 with the message JSON.  `text` is the raw
`req.body.text` (no validation). -/
def postMessageHandler (freshId : String) (timestamp : Nat) (uid chatId : String)
    (text : Option String) (chats : ChatStore) : HttpResponse × ChatStore :=
  match findChat chatId uid chats with
  | none => ({ status := 404, body := .str "Chat not found" }, chats)
  | some _ =>
    let message := Message.now freshId timestamp text uid Sender.user
    ({ status := 200, body := message.toJson }, pushMessage chatId uid message chats)

/-- `interface ChatCompletionMessageParam`, restricted to the two fields the
server fills in: `content` and `role`. -/
structure ChatCompletionMessageParam where
  content : Option String
  role : String
  deriving DecidableEq, Repr

/-- `message.content` of a completion choice; `string | null` in the API. -/
structure CompletionMessage where
  content : Option String
  deriving DecidableEq, Repr

/-- One element of `response.choices`. -/
structure CompletionChoice where
  message : CompletionMessage
  deriving DecidableEq, Repr

/-- The completion response; only `choices` is consumed by the server. -/
structure CompletionResponse where
  choices : List CompletionChoice
  deriving DecidableEq, Repr

/-- `mapMessages(chat)`: each stored message becomes
`{content: message.text, role: message.sender == "user" ? "user" : "assistant"}`,
in the stored (chronological) order. -/
def mapMessages (chat : Chat) : List ChatCompletionMessageParam :=
  chat.messages.map fun message =>
    { content := message.text,
      role := if message.sender == Sender.user then "user" else "assistant" }

/-- Handler of `GET /chat/:id/response/`.  `bridge` is the external
`openai.chat.completions.create` call: `Except.error` models a thrown
network/API error.  An empty `choices` array makes `response.choices[0].message`
throw a TypeError, which the surrounding try/catch forwards to the top-level
error handler (500, state untouched).  A present first choice has its
`message.content!` passed straight to `Message.now` — the non-null assertion is
erased at runtime, so a `null` content is stored as the text. -/
def getResponseHandler (freshId : String) (timestamp : Nat) (uid chatId : String)
    (bridge : List ChatCompletionMessageParam → Except Unit CompletionResponse)
    (chats : ChatStore) : HttpResponse × ChatStore :=
  match findChat chatId uid chats with
  | none => ({ status := 404, body := .str "Chat not found" }, chats)
  | some chat =>
    match bridge (mapMessages chat) with
    | .error _ => ({ status := 500, body := .str "Something broke!" }, chats)
    | .ok response =>
      match response.choices.head? with
      | none => ({ status := 500, body := .str "Something broke!" }, chats)
      | some choice =>
        let message := Message.now freshId timestamp choice.message.content uid Sender.bot
        ({ status := 200, body := message.toJson }, pushMessage chatId uid message chats)

/-- Handler of `GET /chat/:id/`: `findChat`, 404 if absent, else 200 with the
chat JSON.  Reads only; the store is returned unchanged. -/
def getChatHandler (uid chatId : String) (chats : ChatStore) :
    HttpResponse × ChatStore :=
  match findChat chatId uid chats with
  | none => ({ status := 404, body := .str "Chat not found" }, chats)
  | some chat => ({ status := 200, body := chat.toJson }, chats)

/-- The query of `GET /chat/`: `chats.filter(chat => chat.userId === user.uid)`,
the abstract `listByUser` of the specification. -/
def listByUser (uid : String) (chats : ChatStore) : List Chat :=
  chats.filter fun chat => chat.userId == uid

/-- Handler of `GET /chat/`: 200 with the JSON array of the callers chats. -/
def listChatsHandler (uid : String) (chats : ChatStore) :
    HttpResponse × ChatStore :=
  ({ status := 200, body := .arr ((listByUser uid chats).map Chat.toJson) }, chats)

/-- Worker for the JS `String.split` with a nonempty separator: scan left to
right; wherever the separator is a prefix of the remaining text, cut a piece.
`fuel` only drives the structural recursion; with `fuel ≥ length of the text`
it never runs out, since every step consumes at least one character. -/
def splitGo (sep : List Char) : Nat → List Char → List (List Char)
  | _, [] => [[]]
  | 0, s => [s]
  | fuel + 1, c :: cs =>
    if sep.isPrefixOf (c :: cs) then
      [] :: splitGo sep fuel (List.drop sep.length (c :: cs))
    else
      match splitGo sep fuel cs with
      | [] => [[c]]
      | piece :: pieces => (c :: piece) :: pieces

/-- The JS `s.split(sep)` for a nonempty literal separator, as an executable
model: the list of pieces of `s` between non-overlapping left-to-right
occurrences of `sep` (JS then indexes into this array). -/
def jsSplit (sep s : String) : List String :=
  (splitGo sep.data s.data.length s.data).map String.mk

/-- `req.headers.authorization?.split("Bearer ")[1]`: `none` when the header is
absent or the split has no second element (JS indexing past the end yields
`undefined`). -/
def extractToken (authorization : Option String) : Option String :=
  match authorization with
  | none => none
  | some header => (jsSplit "Bearer " header).get? 1

/-- Rejoin split pieces with the separator (the inverse of a split). -/
def rejoinWith (sep : String) : List String → String
  | [] => ""
  | [piece] => piece
  | piece :: rest => piece ++ sep ++ rejoinWith sep rest

/-- The token extraction as C10 words it, for comparison: the whole portion of
the header after the first occurrence of the substring `Bearer ` (obtained by
rejoining every split piece after the first with the separator), null when the
substring does not occur. -/
def specTokenAfterFirst (header : String) : Option String :=
  match jsSplit "Bearer " header with
  | _ :: second :: rest => some (rejoinWith "Bearer " (second :: rest))
  | _ => none

/-- One inbound request to the router, minus the identity (which authentication
supplies): the route plus its nondeterministic inputs (uuid, clock, completion
outcome for the response route). -/
inductive ReqOp where
  | createChat (freshId : String)
  | listChats
  | getChat (chatId : String)
  | postMessage (freshId : String) (timestamp : Nat) (chatId : String) (text : Option String)
  | getResponse (freshId : String) (timestamp : Nat) (chatId : String)
      (completion : Except Unit CompletionResponse)

/-- Routing of an authenticated request to its handler. -/
def dispatch (uid : String) (op : ReqOp) (chats : ChatStore) :
    HttpResponse × ChatStore :=
  match op with
  | .createChat freshId => createChatHandler freshId uid chats
  | .listChats => listChatsHandler uid chats
  | .getChat chatId => getChatHandler uid chatId chats
  | .postMessage freshId timestamp chatId text =>
      postMessageHandler freshId timestamp uid chatId text chats
  | .getResponse freshId timestamp chatId completion =>
      getResponseHandler freshId timestamp uid chatId (fun _ => completion) chats

/-- The `authenticate` middleware followed by the routed handler.  `verify` is
the external `admin.auth().verifyIdToken`: `none` models a thrown verification
error.  A `null` token, or a failed verification, answers 401 and never reaches
a handler. -/
def handleRequest (verify : String → Option String) (authorization : Option String)
    (op : ReqOp) (chats : ChatStore) : HttpResponse × ChatStore :=
  match extractToken authorization with
  | none => ({ status := 401, body := .str "Unauthorized" }, chats)
  | some token =>
    match verify token with
    | none => ({ status := 401, body := .str "Unauthorized" }, chats)
    | some uid => dispatch uid op chats

/-- A trace of authenticated operations run against the store, oldest first. -/
def runOps : List (String × ReqOp) → ChatStore → ChatStore
  | [], chats => chats
  | (uid, op) :: rest, chats => runOps rest (dispatch uid op chats).2

/-- Whether a routed operation is the chat-creation route. -/
def ReqOp.isCreate : ReqOp → Bool
  | .createChat _ => true
  | _ => false

/-- Number of `create` calls by `uid` in a trace. -/
def createCount (uid : String) (steps : List (String × ReqOp)) : Nat :=
  (steps.filter fun s => s.1 == uid && s.2.isCreate).length

/-- Dart client `class ChatMessage`: `id`, `text`, `createdAt`, `sender` — and
no `userId` field. -/
structure Client.ChatMessage where
  id : String
  text : String
  createdAt : Nat
  sender : Sender
  deriving DecidableEq, Repr

/-- Dart client `class Chat`: `id`, `title`, `messages` — and no `userId` field. -/
structure Client.Chat where
  id : String
  title : String
  messages : List Client.ChatMessage
  deriving DecidableEq, Repr

/-- Dart `Sender.fromJson`: `"user"` and `"bot"` decode; anything else throws
(`none`), as does a non-string value (a Dart type error). -/
def Sender.fromJson : Json → Option Sender
  | .str "user" => some .user
  | .str "bot" => some .bot
  | _ => none

/-- Dart `ChatMessage.fromJson`: reads `id`, `text` (a String — a `null` text
is a type error, hence `none`), `createdAt` via `DateTime.parse` of the
ISO-8601 string, and `sender` via `Sender.fromJson`.  No `userId` is read. -/
def Client.ChatMessage.fromJson (json : Json) : Option Client.ChatMessage :=
  match json.get "id", json.get "text", json.get "createdAt", json.get "sender" with
  | some (.str id), some (.str text), some (.date createdAt), some senderJson =>
      (Sender.fromJson senderJson).map fun sender =>
        { id := id, text := text, createdAt := createdAt, sender := sender }
  | _, _, _, _ => none

/-- The `.map(ChatMessage.fromJson).toList()` of `Chat.fromJson`: the first
element that throws makes the whole decoding throw. -/
def Client.messagesFromJson : List Json → Option (List Client.ChatMessage)
  | [] => some []
  | json :: rest =>
    match Client.ChatMessage.fromJson json, Client.messagesFromJson rest with
    | some m, some ms => some (m :: ms)
    | _, _ => none

/-- Dart `Chat.fromJson`: reads `id`, `title` and the `messages` array.  The
servers `userId` key is ignored; the client type has no such field. -/
def Client.Chat.fromJson (json : Json) : Option Client.Chat :=
  match json.get "id", json.get "title", json.get "messages" with
  | some (.str id), some (.str title), some (.arr messageJsons) =>
      (Client.messagesFromJson messageJsons).map fun messages =>
        { id := id, title := title, messages := messages }
  | _, _, _ => none

/-- Field-wise correspondence between a server message and its client decoding:
everything except `userId` survives the round trip. -/
def MessageRoundTrips (m : Message) (cm : Client.ChatMessage) : Prop :=
  cm.id = m.id ∧ m.text = some cm.text ∧ cm.createdAt = m.createdAt ∧ cm.sender = m.sender

/-- Invariants each routed operation preserves on a chat already in the store:
identity fields frozen, messages extended only at the end. -/
def chatPreserved (c c' : Chat) : Prop :=
  c'.id = c.id ∧ c'.userId = c.userId ∧ c'.title = c.title ∧
    ∃ appended, c'.messages = c.messages ++ appended

/-! ## Sample data for witnesses and counterexamples -/

/-- A chat owned by alice, as a concrete instance. -/
def chatAlice : Chat :=
  { id := "id1", messages := [], title := "New Chat", userId := "alice" }

/-- A chat owned by bob, as a concrete instance. -/
def chatBob : Chat :=
  { id := "id2", messages := [], title := "New Chat", userId := "bob" }

/-- A chat owned by carol holding one user message. -/
def chatCarol : Chat :=
  { id := "id3",
    messages := [{ id := "m1", text := some "hi", createdAt := 1,
                   userId := "carol", sender := Sender.user }],
    title := "New Chat",
    userId := "carol" }

/-- A stubbed Completion Bridge whose single choice carries the text `hello`. -/
def stubBridgeHello : List ChatCompletionMessageParam → Except Unit CompletionResponse :=
  fun _ => .ok { choices := [{ message := { content := some "hello" } }] }

/-- A stubbed Completion Bridge whose single choice carries a `null` content,
as the OpenAI API type (`string | null`) permits. -/
def nullContentBridge : List ChatCompletionMessageParam → Except Unit CompletionResponse :=
  fun _ => .ok { choices := [{ message := { content := none } }] }

/-- A serialized-side chat owned by alice, whose message is also attributed to
alice. -/
def chatSerAlice : Chat :=
  { id := "chat9",
    messages := [{ id := "m9", text := some "hey", createdAt := 3,
                   userId := "alice", sender := Sender.user }],
    title := "New Chat", userId := "alice" }

/-- The same chat as [chatSerAlice] except for the two `userId` fields. -/
def chatSerBob : Chat :=
  { id := "chat9",
    messages := [{ id := "m9", text := some "hey", createdAt := 3,
                   userId := "bob", sender := Sender.user }],
    title := "New Chat", userId := "bob" }

/-- What the client decodes `chatCarol` to. -/
def clientChatCarol : Client.Chat :=
  { id := "id3", title := "New Chat",
    messages := [{ id := "m1", text := "hi", createdAt := 1, sender := Sender.user }] }

/-- A concrete trace: two creations by `u1`, one by `u2`, one read. -/
def sampleSteps : List (String × ReqOp) :=
  [("u1", ReqOp.createChat "c1"),
   ("u2", ReqOp.createChat "c2"),
   ("u1", ReqOp.createChat "c3"),
   ("u1", ReqOp.listChats)]

/-! ## Helper lemmas -/

theorem chatPreserved_refl (c : Chat) : chatPreserved c c :=
  ⟨rfl, rfl, rfl, [], by simp⟩

theorem forall₂_chatPreserved_refl (s : ChatStore) : List.Forall₂ chatPreserved s s :=
  List.forall₂_same.mpr fun x _ => chatPreserved_refl x

theorem pushMessage_forall₂ (chatId uid : String) (m : Message) (s : ChatStore) :
    List.Forall₂ chatPreserved s (pushMessage chatId uid m s) := by
  induction s with
  | nil => exact List.Forall₂.nil
  | cons chat rest ih =>
    by_cases h : (chat.id == chatId && chat.userId == uid) = true
    · simp only [pushMessage, h, if_true]
      exact List.forall₂_cons.mpr
        ⟨⟨rfl, rfl, rfl, [m], rfl⟩, forall₂_chatPreserved_refl rest⟩
    · simp only [pushMessage, h, if_false]
      exact List.forall₂_cons.mpr ⟨chatPreserved_refl chat, ih⟩

theorem pushMessage_length (chatId uid : String) (m : Message) (s : ChatStore) :
    (pushMessage chatId uid m s).length = s.length :=
  (pushMessage_forall₂ chatId uid m s).length_eq.symm

theorem findChat_pushMessage (chatId uid : String) (m : Message) (s : ChatStore)
    (chat : Chat) (h : findChat chatId uid s = some chat) :
    findChat chatId uid (pushMessage chatId uid m s) =
      some { chat with messages := chat.messages ++ [m] } := by
  induction s with
  | nil => simp [findChat] at h
  | cons c rest ih =>
    by_cases hc : (c.id == chatId && c.userId == uid) = true
    · have hce : c = chat := by
        simpa [findChat, List.find?_cons, hc] using h
      subst hce
      simp [pushMessage, hc, findChat, List.find?_cons]
    · have h' : findChat chatId uid rest = some chat := by
        simpa [findChat, List.find?_cons, hc] using h
      simp only [pushMessage, hc, if_false]
      simpa [findChat, List.find?_cons, hc] using ih h'

theorem findChat_mem_unique (s : ChatStore) (c : Chat)
    (hmem : c ∈ s) (huniq : ∀ cc ∈ s, cc.id = c.id → cc = c) :
    findChat c.id c.userId s = some c := by
  induction s with
  | nil => cases hmem
  | cons d rest ih =>
    by_cases hd : (d.id == c.id && d.userId == c.userId) = true
    · have hid : d.id = c.id := by
        have := (Bool.and_eq_true _ _).mp hd
        exact beq_iff_eq.mp this.1
      have hdc : d = c := huniq d (List.mem_cons_self d rest) hid
      simp [findChat, List.find?_cons, hd, hdc]
    · have hdc : d ≠ c := by
        intro he
        subst he
        simp at hd
      have hmem' : c ∈ rest := by
        rcases List.mem_cons.mp hmem with he | hr
        · exact absurd he.symm hdc
        · exact hr
      have huniq' : ∀ cc ∈ rest, cc.id = c.id → cc = c := fun cc hcc =>
        huniq cc (List.mem_cons_of_mem d hcc)
      simpa [findChat, List.find?_cons, hd] using ih hmem' huniq'

theorem findChat_other_none (s : ChatStore) (c : Chat) (v : String)
    (huniq : ∀ cc ∈ s, cc.id = c.id → cc = c) (hv : v ≠ c.userId) :
    findChat c.id v s = none := by
  apply List.find?_eq_none.mpr
  intro x hx hcontra
  have hparts := (Bool.and_eq_true _ _).mp hcontra
  have hid : x.id = c.id := beq_iff_eq.mp hparts.1
  have huid : x.userId = v := beq_iff_eq.mp hparts.2
  have hxc : x = c := huniq x hx hid
  subst hxc
  exact hv huid.symm

/-! ## C1 -/

/-- C1: a chat present in the store (with the uuid-freshness guarantee that no
other stored chat shares its id) is returned by `findChat` for its owner, and
for every other user `findChat` yields `none` and the route answers 404 — the
same `Chat not found` response a nonexistent id gets, so a foreign chat is
indistinguishable from a missing one. -/
theorem find_owned_chat_iff_owner (s : ChatStore) (c : Chat) (v : String)
    (hmem : c ∈ s) (huniq : ∀ cc ∈ s, cc.id = c.id → cc = c)
    (hv : v ≠ c.userId) :
    findChat c.id c.userId s = some c ∧
    getChatHandler c.userId c.id s = ({ status := 200, body := c.toJson }, s) ∧
    findChat c.id v s = none ∧
    getChatHandler v c.id s = ({ status := 404, body := .str "Chat not found" }, s) := by
  have hown := findChat_mem_unique s c hmem huniq
  have hother := findChat_other_none s c v huniq hv
  refine ⟨hown, ?_, hother, ?_⟩
  · simp [getChatHandler, hown]
  · simp [getChatHandler, hother]

/-- Witness for C1 at a concrete two-chat store. -/
theorem find_owned_chat_iff_owner_witness :
    findChat chatAlice.id chatAlice.userId [chatAlice, chatBob] = some chatAlice ∧
    getChatHandler chatAlice.userId chatAlice.id [chatAlice, chatBob] =
      ({ status := 200, body := chatAlice.toJson }, [chatAlice, chatBob]) ∧
    findChat chatAlice.id "bob" [chatAlice, chatBob] = none ∧
    getChatHandler "bob" chatAlice.id [chatAlice, chatBob] =
      ({ status := 404, body := .str "Chat not found" }, [chatAlice, chatBob]) :=
  find_owned_chat_iff_owner [chatAlice, chatBob] chatAlice "bob"
    (by decide) (by decide) (by decide)

/-! ## C5 and C6 -/

/-- C5: on an owned chat, `POST /chat/:id/messages/` appends exactly one
message — the new last message of that chat — whose sender is `user`, whose
`userId` is the appending user and whose text is the submitted payload stored
untouched (the quantification over every `text`, including the empty and the
`null` payload, is the absence of validation); the created message is the
response body.  On a chat that `findChat` does not resolve, the route answers
404 and the store is returned unchanged. -/
theorem postMessage_spec (freshId : String) (timestamp : Nat) (uid chatId : String)
    (text : Option String) (s : ChatStore) :
    (∀ chat, findChat chatId uid s = some chat →
      postMessageHandler freshId timestamp uid chatId text s =
        ({ status := 200, body := (Message.now freshId timestamp text uid Sender.user).toJson },
          pushMessage chatId uid (Message.now freshId timestamp text uid Sender.user) s) ∧
      findChat chatId uid
          (pushMessage chatId uid (Message.now freshId timestamp text uid Sender.user) s) =
        some { chat with
                messages := chat.messages ++ [Message.now freshId timestamp text uid Sender.user] } ∧
      (chat.messages ++ [Message.now freshId timestamp text uid Sender.user]).length =
        chat.messages.length + 1 ∧
      (Message.now freshId timestamp text uid Sender.user).sender = Sender.user ∧
      (Message.now freshId timestamp text uid Sender.user).userId = uid ∧
      (Message.now freshId timestamp text uid Sender.user).text = text) ∧
    (findChat chatId uid s = none →
      postMessageHandler freshId timestamp uid chatId text s =
        ({ status := 404, body := .str "Chat not found" }, s)) := by
  constructor
  · intro chat h
    refine ⟨?_, findChat_pushMessage _ _ _ _ _ h, by simp, rfl, rfl, rfl⟩
    simp [postMessageHandler, h]
  · intro h
    simp [postMessageHandler, h]

/-- Witness for C5: appending to carols one-message chat. -/
theorem postMessage_spec_witness :
    findChat "id3" "carol" [chatCarol] = some chatCarol ∧
    postMessageHandler "m7" 3 "carol" "id3" (some "hello there") [chatCarol] =
      ({ status := 200,
         body := (Message.now "m7" 3 (some "hello there") "carol" Sender.user).toJson },
        pushMessage "id3" "carol"
          (Message.now "m7" 3 (some "hello there") "carol" Sender.user) [chatCarol]) ∧
    findChat "id3" "carol"
        (pushMessage "id3" "carol"
          (Message.now "m7" 3 (some "hello there") "carol" Sender.user) [chatCarol]) =
      some { chatCarol with
              messages := chatCarol.messages ++
                [Message.now "m7" 3 (some "hello there") "carol" Sender.user] } :=
  ⟨by decide,
   ((postMessage_spec "m7" 3 "carol" "id3" (some "hello there") [chatCarol]).1
      chatCarol (by decide)).1,
   ((postMessage_spec "m7" 3 "carol" "id3" (some "hello there") [chatCarol]).1
      chatCarol (by decide)).2.1⟩

/-- C6: `POST /chat/` always answers 200 (there is no failure branch), with a
chat whose `messages` is empty, whose title is the placeholder `New Chat`,
whose owner is the caller and whose id is the fresh uuid; the chat is appended
at the end of the store.  When the uuid is indeed fresh (the `v4` guarantee),
its id is held by no other stored chat. -/
theorem createChat_spec (freshId u : String) (s : ChatStore) :
    createChatHandler freshId u s =
      ({ status := 200, body := (Chat.empty freshId u).toJson }, s ++ [Chat.empty freshId u]) ∧
    (Chat.empty freshId u).messages = [] ∧
    (Chat.empty freshId u).title = "New Chat" ∧
    (Chat.empty freshId u).userId = u ∧
    (Chat.empty freshId u).id = freshId ∧
    ((∀ c ∈ s, c.id ≠ freshId) →
      ∀ c ∈ s ++ [Chat.empty freshId u],
        c.id = (Chat.empty freshId u).id → c = Chat.empty freshId u) := by
  refine ⟨rfl, rfl, rfl, rfl, rfl, ?_⟩
  intro hfresh c hc hid
  rcases List.mem_append.mp hc with hs | hl
  · exact absurd hid (hfresh c hs)
  · simpa using hl

/-- Witness for C6 on a one-chat store with a fresh uuid. -/
theorem createChat_spec_witness :
    createChatHandler "fresh1" "alice" [chatBob] =
      ({ status := 200, body := (Chat.empty "fresh1" "alice").toJson },
        [chatBob] ++ [Chat.empty "fresh1" "alice"]) ∧
    (∀ c ∈ [chatBob] ++ [Chat.empty "fresh1" "alice"],
      c.id = (Chat.empty "fresh1" "alice").id → c = Chat.empty "fresh1" "alice") :=
  ⟨(createChat_spec "fresh1" "alice" [chatBob]).1,
   (createChat_spec "fresh1" "alice" [chatBob]).2.2.2.2.2 (by decide)⟩

/-! ## C4 and C2 -/

/-- C4: when the chat resolves and the external call on exactly the mapped
message history answers with a first choice carrying text `t`, the route
appends to the chat — and returns — a message built from `t` with sender `bot`
and `userId` the requesting user.  The second conjunct spells out the mapping
the bridge receives: the entire stored sequence, in order, `text` as content,
sender `user` as role `user` and sender `bot` as role `assistant`. -/
theorem getResponse_success_spec (freshId : String) (timestamp : Nat)
    (uid chatId : String)
    (bridge : List ChatCompletionMessageParam → Except Unit CompletionResponse)
    (s : ChatStore) (chat : Chat) (response : CompletionResponse)
    (choice : CompletionChoice) (t : String)
    (hfind : findChat chatId uid s = some chat)
    (hbridge : bridge (mapMessages chat) = .ok response)
    (hchoice : response.choices.head? = some choice)
    (hcontent : choice.message.content = some t) :
    getResponseHandler freshId timestamp uid chatId bridge s =
      ({ status := 200, body := (Message.now freshId timestamp (some t) uid Sender.bot).toJson },
        pushMessage chatId uid (Message.now freshId timestamp (some t) uid Sender.bot) s) ∧
    List.Forall₂
      (fun (m : Message) (p : ChatCompletionMessageParam) =>
        p.content = m.text ∧
        p.role = match m.sender with | Sender.user => "user" | Sender.bot => "assistant")
      chat.messages (mapMessages chat) ∧
    findChat chatId uid
        (pushMessage chatId uid (Message.now freshId timestamp (some t) uid Sender.bot) s) =
      some { chat with
              messages := chat.messages ++ [Message.now freshId timestamp (some t) uid Sender.bot] } ∧
    (chat.messages ++ [Message.now freshId timestamp (some t) uid Sender.bot]).length =
      chat.messages.length + 1 := by
  refine ⟨?_, ?_, findChat_pushMessage _ _ _ _ _ hfind, by simp⟩
  · simp [getResponseHandler, hfind, hbridge, hchoice, hcontent]
  · apply List.forall₂_map_right_iff.mpr
    apply List.forall₂_same.mpr
    intro m _
    refine ⟨rfl, ?_⟩
    cases m.sender <;> rfl

/-- Witness for C4: a stubbed bridge returning `hello` on carols chat. -/
theorem getResponse_success_spec_witness :
    findChat "id3" "carol" [chatCarol] = some chatCarol ∧
    getResponseHandler "m2" 9 "carol" "id3" stubBridgeHello [chatCarol] =
      ({ status := 200, body := (Message.now "m2" 9 (some "hello") "carol" Sender.bot).toJson },
        pushMessage "id3" "carol"
          (Message.now "m2" 9 (some "hello") "carol" Sender.bot) [chatCarol]) :=
  ⟨by decide,
   (getResponse_success_spec "m2" 9 "carol" "id3" stubBridgeHello [chatCarol]
      chatCarol { choices := [{ message := { content := some "hello" } }] }
      { message := { content := some "hello" } } "hello"
      (by decide) rfl rfl rfl).1⟩

/-- C2, the divergence: a completion whose first choice is present but carries
a `null` content is not turned into a 500 — the runtime-erased non-null
assertion on `message.content` lets the `null` through, so the route answers
200 and appends a bot message whose text is `null`, changing the chat.  (The
systems own client treats a `null` text as impossible: the Dart
`ChatMessage.fromJson` would throw on it.)  The true 500 branches — a thrown
external call and an empty `choices` array — do leave the store unchanged. -/
theorem getResponse_null_content_divergence :
    (getResponseHandler "m9" 5 "carol" "id3" nullContentBridge [chatCarol]).1.status = 200 ∧
    getResponseHandler "m9" 5 "carol" "id3" nullContentBridge [chatCarol] =
      ({ status := 200, body := (Message.now "m9" 5 none "carol" Sender.bot).toJson },
        [{ chatCarol with
            messages := chatCarol.messages ++ [Message.now "m9" 5 none "carol" Sender.bot] }]) ∧
    (getResponseHandler "m9" 5 "carol" "id3" nullContentBridge [chatCarol]).2 ≠ [chatCarol] ∧
    getResponseHandler "m9" 5 "carol" "id3" (fun _ => .error ()) [chatCarol] =
      ({ status := 500, body := .str "Something broke!" }, [chatCarol]) ∧
    getResponseHandler "m9" 5 "carol" "id3" (fun _ => .ok { choices := [] }) [chatCarol] =
      ({ status := 500, body := .str "Something broke!" }, [chatCarol]) :=
  ⟨rfl, rfl, by decide, rfl, rfl⟩

/-! ## C7 and C10 -/

/-- C7: whenever no verifiable bearer credential is presented — the extracted
token is null (header absent or without the marker), or the Identity Verifier
rejects whatever token was extracted — the request is answered 401 with the
store returned untouched, for every route: no handler that could mutate the
store is reached. -/
theorem unauthorized_rejected_spec (verify : String → Option String)
    (authorization : Option String) (op : ReqOp) (s : ChatStore)
    (h : ∀ token, extractToken authorization = some token → verify token = none) :
    handleRequest verify authorization op s =
      ({ status := 401, body := .str "Unauthorized" }, s) := by
  cases he : extractToken authorization with
  | none => simp [handleRequest, he]
  | some token => simp [handleRequest, he, h token he]

/-- Witness for C7: a header without the bearer marker under an accepting
verifier, and a well-formed header under a rejecting verifier. -/
theorem unauthorized_rejected_spec_witness :
    extractToken (some "Basic abc") = none ∧
    handleRequest (fun _ => some "alice") (some "Basic abc") (.createChat "c9") [] =
      ({ status := 401, body := .str "Unauthorized" }, []) ∧
    handleRequest (fun _ => none) (some "Bearer tok")
        (.postMessage "m1" 0 "id1" (some "x")) [chatAlice] =
      ({ status := 401, body := .str "Unauthorized" }, [chatAlice]) :=
  ⟨by decide,
   unauthorized_rejected_spec _ _ _ _ (fun token ht => by
     have hnone : extractToken (some "Basic abc") = none := by decide
     rw [hnone] at ht
     exact Option.noConfusion ht),
   unauthorized_rejected_spec _ _ _ _ (fun _ _ => rfl)⟩

/-- C10 counterexample: on the header `Bearer aBearer b` the code extracts
`a` — the slice between the first and the second occurrence of `Bearer ` —
while the claim describes the whole remaining portion `aBearer b`. -/
theorem extractToken_not_suffix_counterexample :
    extractToken (some "Bearer aBearer b") = some "a" ∧
    specTokenAfterFirst "Bearer aBearer b" = some "aBearer b" ∧
    extractToken (some "Bearer aBearer b") ≠ specTokenAfterFirst "Bearer aBearer b" :=
  ⟨by decide, by decide, by decide⟩

/-- C10 amended: extraction takes the second piece of the JS split of the
header on `Bearer ` — the portion after the first occurrence only up to its
next occurrence — which coincides with the claim whenever the substring occurs
at most once.  Whenever the extracted token is null (in particular for an
absent header, or one not containing the substring), the request is answered
401 with the store untouched, under every possible verifier — the Identity
Verifier is never consulted. -/
theorem extractToken_amended (verify : String → Option String)
    (authorization : Option String) (op : ReqOp) (s : ChatStore)
    (h : extractToken authorization = none) :
    handleRequest verify authorization op s =
      ({ status := 401, body := .str "Unauthorized" }, s) ∧
    extractToken none = none ∧
    ∀ header, extractToken (some header) = (jsSplit "Bearer " header).get? 1 := by
  refine ⟨by simp [handleRequest, h], rfl, fun _ => rfl⟩

/-- Witness for C10 on a bearer-less header and an arbitrary verifier. -/
theorem extractToken_amended_witness :
    extractToken (some "Token xyz") = none ∧
    handleRequest (fun t => some t) (some "Token xyz") ReqOp.listChats [chatBob] =
      ({ status := 401, body := .str "Unauthorized" }, [chatBob]) :=
  ⟨by decide,
   (extractToken_amended (fun t => some t) (some "Token xyz") ReqOp.listChats [chatBob]
      (by decide)).1⟩

/-! ## C9 -/

theorem preserved_of_eq {s s' : ChatStore} (h : s' = s) :
    s.length ≤ s'.length ∧ List.Forall₂ chatPreserved s (s'.take s.length) := by
  subst h
  exact ⟨le_refl _, by rw [List.take_length]; exact forall₂_chatPreserved_refl _⟩

theorem preserved_of_push (chatId u : String) (m : Message) (s : ChatStore) :
    s.length ≤ (pushMessage chatId u m s).length ∧
    List.Forall₂ chatPreserved s ((pushMessage chatId u m s).take s.length) := by
  have hlen := pushMessage_length chatId u m s
  constructor
  · omega
  · rw [show s.length = (pushMessage chatId u m s).length from hlen.symm, List.take_length]
    exact pushMessage_forall₂ chatId u m s

theorem dispatch_preserves (uid : String) (op : ReqOp) (s : ChatStore) :
    s.length ≤ ((dispatch uid op s).2).length ∧
    List.Forall₂ chatPreserved s (((dispatch uid op s).2).take s.length) := by
  cases op with
  | createChat freshId =>
    refine ⟨by simp [dispatch, createChatHandler], ?_⟩
    have : ((dispatch uid (ReqOp.createChat freshId) s).2).take s.length = s := by
      simp only [dispatch, createChatHandler]
      exact List.take_left s [Chat.empty freshId uid]
    rw [this]
    exact forall₂_chatPreserved_refl s
  | listChats => exact preserved_of_eq rfl
  | getChat chatId =>
    simp only [dispatch, getChatHandler]
    split
    · exact preserved_of_eq rfl
    · exact preserved_of_eq rfl
  | postMessage freshId timestamp chatId text =>
    simp only [dispatch, postMessageHandler]
    split
    · exact preserved_of_eq rfl
    · exact preserved_of_push _ _ _ _
  | getResponse freshId timestamp chatId completion =>
    simp only [dispatch, getResponseHandler]
    split
    · exact preserved_of_eq rfl
    · split
      · exact preserved_of_eq rfl
      · split
        · exact preserved_of_eq rfl
        · exact preserved_of_push _ _ _ _

/-- C9: every request — on every route, authenticated or rejected — leaves a
store in which no chat was removed (the length never shrinks and every existing
position keeps its chat), and in which each already-stored chat keeps its
`id`, `userId` and `title` and keeps its previous `messages` sequence as a
prefix: messages are only ever appended, never reordered, mutated or deleted. -/
theorem operations_preserve_invariants (verify : String → Option String)
    (authorization : Option String) (op : ReqOp) (s : ChatStore) :
    s.length ≤ ((handleRequest verify authorization op s).2).length ∧
    List.Forall₂ chatPreserved s
      (((handleRequest verify authorization op s).2).take s.length) := by
  unfold handleRequest
  split
  · exact preserved_of_eq rfl
  · split
    · exact preserved_of_eq rfl
    · exact dispatch_preserves _ _ _

/-! ## C8 -/

theorem listByUser_length_of_forall₂ (u : String) {s s' : ChatStore}
    (h : List.Forall₂ chatPreserved s s') :
    (listByUser u s').length = (listByUser u s).length := by
  induction h with
  | nil => rfl
  | @cons a b l₁ l₂ hcc _ ih =>
    simp only [listByUser] at ih
    simp only [listByUser, List.filter_cons]
    rw [hcc.2.1]
    by_cases hu : (a.userId == u) = true
    · simp [hu, ih]
    · simp [hu, ih]

theorem getChatHandler_state (uid chatId : String) (s : ChatStore) :
    (getChatHandler uid chatId s).2 = s := by
  unfold getChatHandler
  split <;> rfl

theorem listByUser_length_dispatch (uid : String) (op : ReqOp) (u : String)
    (s : ChatStore) :
    (listByUser u (dispatch uid op s).2).length =
      (listByUser u s).length + (if uid == u && op.isCreate then 1 else 0) := by
  cases op with
  | createChat freshId =>
    simp only [dispatch, createChatHandler, ReqOp.isCreate, Bool.and_true]
    by_cases h : (uid == u) = true
    · simp [listByUser, List.filter_append, Chat.empty, h]
    · simp [listByUser, List.filter_append, Chat.empty, h]
  | listChats =>
    simp [dispatch, listChatsHandler, ReqOp.isCreate]
  | getChat chatId =>
    rw [show (dispatch uid (ReqOp.getChat chatId) s).2 = s from getChatHandler_state uid chatId s]
    simp [ReqOp.isCreate]
  | postMessage freshId timestamp chatId text =>
    simp only [dispatch, postMessageHandler, ReqOp.isCreate, Bool.and_false, if_false]
    split
    · simp
    · simpa using listByUser_length_of_forall₂ u (pushMessage_forall₂ chatId uid _ s)
  | getResponse freshId timestamp chatId completion =>
    simp only [dispatch, getResponseHandler, ReqOp.isCreate, Bool.and_false, if_false]
    split
    · simp
    · split
      · simp
      · split
        · simp
        · simpa using listByUser_length_of_forall₂ u (pushMessage_forall₂ chatId uid _ s)

theorem createCount_cons (uid : String) (op : ReqOp) (u : String)
    (rest : List (String × ReqOp)) :
    createCount u ((uid, op) :: rest) =
      (if uid == u && op.isCreate then 1 else 0) + createCount u rest := by
  simp only [createCount, List.filter_cons]
  cases hb : (uid == u && ReqOp.isCreate op)
  · simp [hb]
  · simp [hb]
    omega

theorem runOps_listByUser_length (u : String) (steps : List (String × ReqOp))
    (s : ChatStore) :
    (listByUser u (runOps steps s)).length =
      (listByUser u s).length + createCount u steps := by
  induction steps generalizing s with
  | nil => simp [runOps, createCount]
  | cons step rest ih =>
    obtain ⟨uid, op⟩ := step
    simp only [runOps]
    rw [ih ((dispatch uid op s).2), listByUser_length_dispatch, createCount_cons]
    omega

/-- C8: in the store reached by any trace of authenticated operations from the
empty initial store, the `GET /chat/` query for `u` returns chats all owned by
`u`, returns every stored chat owned by `u`, preserves store insertion
(creation) order (it is a sublist of the store), and has exactly as many
elements as the trace has create calls by `u`. -/
theorem listByUser_spec (u : String) (steps : List (String × ReqOp)) :
    (listByUser u (runOps steps [])).length = createCount u steps ∧
    (∀ c ∈ listByUser u (runOps steps []), c.userId = u) ∧
    (∀ c ∈ runOps steps [], c.userId = u → c ∈ listByUser u (runOps steps [])) ∧
    (listByUser u (runOps steps [])).Sublist (runOps steps []) := by
  refine ⟨?_, ?_, ?_, List.filter_sublist _⟩
  · simpa [listByUser] using runOps_listByUser_length u steps []
  · intro c hc
    exact beq_iff_eq.mp (List.mem_filter.mp hc).2
  · intro c hc hcu
    exact List.mem_filter.mpr ⟨hc, beq_iff_eq.mpr hcu⟩

/-- Witness for C8 on the concrete four-step trace. -/
theorem listByUser_spec_witness :
    (listByUser "u1" (runOps sampleSteps [])).length = createCount "u1" sampleSteps ∧
    createCount "u1" sampleSteps = 2 ∧
    Chat.empty "c1" "u1" ∈ runOps sampleSteps [] ∧
    Chat.empty "c1" "u1" ∈ listByUser "u1" (runOps sampleSteps []) :=
  ⟨(listByUser_spec "u1" sampleSteps).1,
   by decide,
   by decide,
   (listByUser_spec "u1" sampleSteps).2.2.1 (Chat.empty "c1" "u1") (by decide) rfl⟩

/-! ## C3 -/

theorem clientMessage_fromJson_toJson (m : Message) (t : String) (h : m.text = some t) :
    Client.ChatMessage.fromJson (Message.toJson m) =
      some { id := m.id, text := t, createdAt := m.createdAt, sender := m.sender } := by
  obtain ⟨id, text, createdAt, userId, sender⟩ := m
  simp only at h
  subst h
  cases sender <;> rfl

theorem clientMessage_fromJson_toJson_none (m : Message) (h : m.text = none) :
    Client.ChatMessage.fromJson (Message.toJson m) = none := by
  obtain ⟨id, text, createdAt, userId, sender⟩ := m
  simp only at h
  subst h
  rfl

theorem messagesFromJson_roundtrip (ms : List Message) (cms : List Client.ChatMessage)
    (h : Client.messagesFromJson (ms.map Message.toJson) = some cms) :
    List.Forall₂ MessageRoundTrips ms cms := by
  induction ms generalizing cms with
  | nil =>
    simp only [List.map_nil, Client.messagesFromJson] at h
    obtain rfl : ([] : List Client.ChatMessage) = cms := Option.some.inj h
    exact List.Forall₂.nil
  | cons m rest ih =>
    rw [List.map_cons] at h
    cases hmt : m.text with
    | none =>
      rw [show Client.messagesFromJson (Message.toJson m :: rest.map Message.toJson) =
            none by
          simp [Client.messagesFromJson, clientMessage_fromJson_toJson_none m hmt]] at h
      exact Option.noConfusion h
    | some t =>
      have hm := clientMessage_fromJson_toJson m t hmt
      simp only [Client.messagesFromJson, hm] at h
      cases hrest : Client.messagesFromJson (rest.map Message.toJson) with
      | none =>
        rw [hrest] at h
        exact Option.noConfusion h
      | some cmsRest =>
        rw [hrest] at h
        obtain rfl := Option.some.inj h
        exact List.forall₂_cons.mpr ⟨⟨rfl, hmt, rfl, rfl⟩, ih cmsRest hrest⟩

/-- C3 counterexample: two server chats that differ exactly in their `userId`
fields — on the chat record and on its message — serialize to distinct JSON
but decode on the client to the very same value, because the Dart `Chat` and
`ChatMessage` classes carry no `userId`.  No round trip through the client
decoding can therefore reproduce `userId`, as the claim states it does. -/
theorem roundtrip_drops_userId_counterexample :
    chatSerAlice.userId ≠ chatSerBob.userId ∧
    chatSerAlice.messages.map Message.userId ≠ chatSerBob.messages.map Message.userId ∧
    Client.Chat.fromJson (Chat.toJson chatSerAlice) =
      Client.Chat.fromJson (Chat.toJson chatSerBob) ∧
    (Client.Chat.fromJson (Chat.toJson chatSerAlice)).isSome = true :=
  ⟨by decide, by decide, rfl, rfl⟩

/-- C3 amended: serializing a Chat on the server and deserializing it on the
client reproduces `id`, `title`, and the ordered messages sequence with each
message keeping its `id`, `text`, `createdAt` and `sender` — but not `userId`,
which the client types do not carry (neither on the chat nor on its messages;
see the counterexample). -/
theorem chat_roundtrip_amended (c : Chat) (cc : Client.Chat)
    (h : Client.Chat.fromJson (Chat.toJson c) = some cc) :
    cc.id = c.id ∧ cc.title = c.title ∧
    List.Forall₂ MessageRoundTrips c.messages cc.messages ∧
    cc.messages.length = c.messages.length := by
  have h' : (Client.messagesFromJson (c.messages.map Message.toJson)).map
      (fun messages =>
        ({ id := c.id, title := c.title, messages := messages } : Client.Chat)) =
      some cc := h
  rcases Option.map_eq_some'.mp h' with ⟨cms, hcms, hcc⟩
  subst hcc
  have hf := messagesFromJson_roundtrip c.messages cms hcms
  exact ⟨rfl, rfl, hf, hf.length_eq.symm⟩

/-- Witness for C3 amended: carols one-message chat decodes successfully and
every surviving field matches. -/
theorem chat_roundtrip_amended_witness :
    Client.Chat.fromJson (Chat.toJson chatCarol) = some clientChatCarol ∧
    clientChatCarol.id = chatCarol.id ∧
    List.Forall₂ MessageRoundTrips chatCarol.messages clientChatCarol.messages :=
  ⟨by decide,
   (chat_roundtrip_amended chatCarol clientChatCarol (by decide)).1,
   (chat_roundtrip_amended chatCarol clientChatCarol (by decide)).2.2.1⟩
